import Mathlib

/-!
Verification development for the accounting-identity validation and
opening-balance reconciliation engine of the Audit-p repository.

The embedding models the two tabular data sets as lists of records with
exact rational amounts, and transliterates the relevant functions of
`src/cleaning/adjust_opening_balance.py` (class OpeningBalanceAdjuster) and
`src/cleaning/financial/financial_validation.py` (class FinancialDataValidator).
A missing CSV value (pandas NaN) stringifies to "nan" in the Python code,
so the string "nan" plays that role here as well.
-/

attribute [local semireducible] Rat.add Rat.sub Rat.mul Rat.ofScientific

/-- Account classification per the Chinese GAAP first-digit convention. -/
inductive AccountType where
  | asset
  | liability
  | equity
  | income
  | expense
  | unknown
deriving DecidableEq, BEq, Repr

/-- The normal balance side of an account classification. -/
inductive NormalSide where
  | debit
  | credit
deriving DecidableEq, BEq, Repr

/-- Normal side per classification: debit for asset/expense (and for the
debit-normal default the code applies to `unknown` where it computes nets),
credit for liability/equity/income. -/
def normalSide (t : AccountType) : NormalSide :=
  match t with
  | .asset | .expense | .unknown => .debit
  | .liability | .equity | .income => .credit

/-- One row of the subject balance table (final_enhanced_balance.csv) after
the numeric preprocessing of `_preprocess_data`: the six monetary columns are
coerced to numbers, and the `year` column is derived from the period label. -/
structure BalanceRow where
  company : String
  period : String
  year : Int
  subjectCode : String
  subjectName : String
  codePath : String
  isDimensionRow : Bool
  dimensionName : String
  openDebit : ℚ
  openCredit : ℚ
  periodDebit : ℚ
  periodCredit : ℚ
  closeDebit : ℚ
  closeCredit : ℚ
deriving DecidableEq, Repr

/-- One aggregated voucher row as grouped by
`validate_voucher_reconciliation`: company, fiscal year (after the
comma-stripping coercion to int), subject code, and the debit/credit amounts. -/
structure VoucherRow where
  company : String
  fiscalYear : Int
  subjectCode : String
  debit : ℚ
  credit : ℚ
deriving DecidableEq, Repr

/-- Split a character list at every occurrence of a separator, keeping empty
groups, with the semantics of Python str.split on a one-character separator. -/
def splitOnChar (sep : Char) : List Char → List (List Char)
  | [] => [[]]
  | c :: rest =>
    match splitOnChar sep rest with
    | [] => [[c]]
    | g :: gs => if c = sep then [] :: g :: gs else (c :: g) :: gs

/-- Python str.split with a one-character separator. -/
def pySplit (s : String) (sep : Char) : List String :=
  (splitOnChar sep s.data).map (fun cs => String.mk cs)

/-- Python str.startswith. -/
def pyStartsWith (s pre : String) : Bool :=
  pre.data.isPrefixOf s.data

/-- Python str.join over a list of segments. -/
def pyJoin (sep : String) : List String → String
  | [] => ""
  | [s] => s
  | s :: rest => s ++ sep ++ pyJoin sep rest

/-- First-character digit classification shared by both `_get_account_type`
implementations (the chain of `startswith` tests on the main code). `none`
models falling through every branch. -/
def digitClass (code : String) : Option AccountType :=
  if pyStartsWith code "1" then some .asset
  else if pyStartsWith code "2" then some .liability
  else if pyStartsWith code "3" then some .equity
  else if pyStartsWith code "4" then some .income
  else if pyStartsWith code "5" || pyStartsWith code "6" then some .expense
  else none

/-- The main code: the segment before the first dot, `subject_code.split(.)[0]`. -/
def mainCode (subjectCode : String) : String :=
  (pySplit subjectCode '.').headD ""

/-- `FinancialDataValidator._get_account_type` (financial_validation.py lines
68-91): classify from the subject code only; anything unmatched is unknown. -/
def getAccountTypeV (subjectCode : String) : AccountType :=
  (digitClass (mainCode subjectCode)).getD .unknown

/-- First non-empty slash-delimited segment of subject_code_path. -/
def firstPathSegment (path : String) : Option String :=
  ((pySplit path '/').filter (fun s => s != "")).head?

/-- `OpeningBalanceAdjuster._get_account_type` (adjust_opening_balance.py
lines 62-106): try the subject code when it is neither blank nor NaN; when
that block does not return (blank code, or a code whose first character
matches none of 1-6) fall through to the first non-empty segment of
subject_code_path; otherwise unknown. -/
def getAccountTypeAdj (subjectCode codePath : String) : AccountType :=
  let fromCode : Option AccountType :=
    if subjectCode ≠ "nan" ∧ subjectCode ≠ "" then digitClass (mainCode subjectCode)
    else none
  match fromCode with
  | some t => t
  | none =>
    let fromPath : Option AccountType :=
      if codePath ≠ "nan" ∧ codePath ≠ "" then
        match firstPathSegment codePath with
        | some seg => digitClass seg
        | none => none
      else none
    fromPath.getD .unknown

/-- The three nets (opening, period, closing) of a row computed on one side:
debit minus credit on the debit side, credit minus debit on the credit side.
This is the net computation repeated per account-type branch in
`validate_accounting_equation`, `verify_adjustments` and
`_calculate_opening_balance`. -/
def rowNets (side : NormalSide) (r : BalanceRow) : ℚ × ℚ × ℚ :=
  match side with
  | .debit =>
    (r.openDebit - r.openCredit, r.periodDebit - r.periodCredit,
      r.closeDebit - r.closeCredit)
  | .credit =>
    (r.openCredit - r.openDebit, r.periodCredit - r.periodDebit,
      r.closeCredit - r.closeDebit)

/-- Conversion of a signed net into a (debit, credit) pair, as performed per
account-type branch in `_calculate_opening_balance` lines 155-191: a
nonnegative net goes on the normal side, a negative net goes negated on the
opposite side. -/
def toPair (side : NormalSide) (n : ℚ) : ℚ × ℚ :=
  match side with
  | .debit => if 0 ≤ n then (n, 0) else (0, -n)
  | .credit => if 0 ≤ n then (0, n) else (-n, 0)

/-- The amount a pair carries on the normal side. -/
def normalAmount (side : NormalSide) (p : ℚ × ℚ) : ℚ :=
  match side with
  | .debit => p.1
  | .credit => p.2

/-- The amount a pair carries on the side opposite to the normal side. -/
def oppositeAmount (side : NormalSide) (p : ℚ × ℚ) : ℚ :=
  match side with
  | .debit => p.2
  | .credit => p.1

/-- The signed net of a (debit, credit) pair on a given side, as read back by
the verification passes. -/
def netOfPair (side : NormalSide) (p : ℚ × ℚ) : ℚ :=
  match side with
  | .debit => p.1 - p.2
  | .credit => p.2 - p.1

/-- `OpeningBalanceAdjuster._calculate_opening_balance` (lines 108-197):
derive the opening pair from closing net minus period net under the row
classification; rows classified unknown keep their original opening pair
(the code logs a warning and returns the stored values). -/
def calcOpeningBalance (r : BalanceRow) : ℚ × ℚ :=
  let t := getAccountTypeAdj r.subjectCode r.codePath
  let openingNet : ℚ :=
    match t with
    | .asset | .expense | .unknown =>
      (r.closeDebit - r.closeCredit) - (r.periodDebit - r.periodCredit)
    | .liability | .equity | .income =>
      (r.closeCredit - r.closeDebit) - (r.periodCredit - r.periodDebit)
  match t with
  | .asset | .expense =>
    if 0 ≤ openingNet then (openingNet, 0) else (0, -openingNet)
  | .liability | .equity | .income =>
    if 0 ≤ openingNet then (0, openingNet) else (-openingNet, 0)
  | .unknown => (r.openDebit, r.openCredit)

/-- The year scope of the solver run: `target_years = [2024, 2025]` as fixed
in `adjust_opening_balances` and `verify_adjustments`. -/
def targetYears : List Int := [2024, 2025]

/-- Per-row action of `adjust_opening_balances` (lines 199-252): rows outside
the target years are untouched; grand-total rows (subject name 合计) are
skipped; otherwise the derived opening pair replaces the stored one exactly
when either side differs from it by more than the 0.01 tolerance. -/
def adjustRow (r : BalanceRow) : BalanceRow :=
  if targetYears.contains r.year then
    if r.subjectName = "合计" then r
    else
      let np := calcOpeningBalance r
      if 0.01 < |np.1 - r.openDebit| ∨ 0.01 < |np.2 - r.openCredit| then
        { r with openDebit := np.1, openCredit := np.2 }
      else r
  else r

/-- Whether `adjust_opening_balances` counts a row as adjusted. -/
def rowAdjusted (r : BalanceRow) : Bool :=
  targetYears.contains r.year && r.subjectName != "合计" &&
    (let np := calcOpeningBalance r
     decide (0.01 < |np.1 - r.openDebit|) || decide (0.01 < |np.2 - r.openCredit|))

/-- `adjust_opening_balances`: the updated table together with the number of
adjustments made. (The Python loop iterates over a pre-loop copy of the
in-scope rows and writes each index once, so it acts as an independent
per-row map.) -/
def adjustOpeningBalances (df : List BalanceRow) : List BalanceRow × Nat :=
  (df.map adjustRow, (df.filter rowAdjusted).length)

/-- The rows for which `_calculate_opening_balance` emits its unknown-type
warning during an adjustment pass: in-scope, not the grand-total row, and
classified unknown. -/
def adjustWarnings (df : List BalanceRow) : List BalanceRow :=
  df.filter (fun r =>
    targetYears.contains r.year && r.subjectName != "合计" &&
      (getAccountTypeAdj r.subjectCode r.codePath == AccountType.unknown))

/-- Result accumulator of `verify_adjustments`: pass and fail counters plus
the content of the error records (subject code and the three nets the check
compared; the source formats these into a message string). -/
structure VerifyResult where
  passed : Nat
  failed : Nat
  errors : List (String × ℚ × ℚ × ℚ)
deriving DecidableEq, Repr

/-- The row loop of `verify_adjustments` (lines 269-307), with the Python
local-variable semantics made explicit: the three net locals are assigned
only in the asset/liability/equity/income/expense branches, so on a row
classified unknown the check reads whatever the previous iteration left in
them, and raises UnboundLocalError when no previous iteration assigned them. -/
def verifyRows (locals : Option (ℚ × ℚ × ℚ)) (res : VerifyResult) :
    List BalanceRow → Except String VerifyResult
  | [] => .ok res
  | r :: rest =>
    let t := getAccountTypeAdj r.subjectCode r.codePath
    let nets : Option (ℚ × ℚ × ℚ) :=
      match t with
      | .unknown => locals
      | _ => some (rowNets (normalSide t) r)
    match nets with
    | none => .error "UnboundLocalError"
    | some v =>
      let res1 :=
        if 0.01 < |v.2.2 - (v.1 + v.2.1)| then
          { res with failed := res.failed + 1,
                     errors := res.errors ++ [(r.subjectCode, v.1, v.2.1, v.2.2)] }
        else { res with passed := res.passed + 1 }
      verifyRows (some v) res1 rest

/-- `verify_adjustments` (lines 254-318): run the identity check over the
target-year rows. -/
def verifyAdjustments (df : List BalanceRow) : Except String VerifyResult :=
  verifyRows none ⟨0, 0, []⟩ (df.filter (fun r => targetYears.contains r.year))

/-- `run_adjustment` (lines 362-392): load, adjust, and when at least one
adjustment was made re-verify; persist the adjusted table only when the
post-check reports zero failures. The first component is the returned
success flag, the second the on-disk table after the run (an exception
inside the flow is caught and yields failure with the disk untouched). -/
def runAdjustment (disk : List BalanceRow) : Bool × List BalanceRow :=
  let a := adjustOpeningBalances disk
  if a.2 = 0 then (true, disk)
  else
    match verifyAdjustments a.1 with
    | .error _ => (false, disk)
    | .ok res => if 0 < res.failed then (false, disk) else (true, a.1)

/-- One structured violation record of `validate_accounting_equation`. -/
structure EqError where
  subjectCode : String
  subjectName : String
  dimensionName : Option String
  accountType : AccountType
  company : String
  period : String
  openingNet : ℚ
  periodNet : ℚ
  closingNet : ℚ
  expectedClosing : ℚ
  difference : ℚ
deriving DecidableEq, Repr

/-- The violation record `validate_accounting_equation` appends for a row. -/
def mkEqErrorOf (r : BalanceRow) : EqError :=
  let t := getAccountTypeV r.subjectCode
  let v := rowNets (normalSide t) r
  { subjectCode := r.subjectCode
    subjectName := r.subjectName
    dimensionName := if r.isDimensionRow then some r.dimensionName else none
    accountType := t
    company := r.company
    period := r.period
    openingNet := v.1
    periodNet := v.2.1
    closingNet := v.2.2
    expectedClosing := v.1 + v.2.1
    difference := v.2.2 - (v.1 + v.2.1) }

/-- Result accumulator of `validate_accounting_equation`. -/
structure EqResult where
  passed : Nat
  failed : Nat
  errors : List EqError
deriving DecidableEq, Repr

/-- One iteration of the `validate_accounting_equation` row loop
(financial_validation.py lines 111-174): unknown classification is skipped
(`continue`); otherwise the nets are computed on the classification's normal
side and the row fails exactly when the identity misses by more than 0.01. -/
def eqStep (acc : EqResult) (r : BalanceRow) : EqResult :=
  match getAccountTypeV r.subjectCode with
  | .unknown => acc
  | t =>
    let v := rowNets (normalSide t) r
    if 0.01 < |v.2.2 - (v.1 + v.2.1)| then
      { acc with failed := acc.failed + 1, errors := acc.errors ++ [mkEqErrorOf r] }
    else { acc with passed := acc.passed + 1 }

/-- `validate_accounting_equation` (lines 93-178) over the balance table. -/
def validateAccountingEquation (df : List BalanceRow) : EqResult :=
  df.foldl eqStep ⟨0, 0, []⟩

/-- The validator object state: the two loaded tables. -/
structure ValidatorState where
  balance : List BalanceRow
  voucher : List VoucherRow
deriving DecidableEq, Repr

/-- The `validate_accounting_equation` method at the object level: it
computes its result from the balance table and performs no write to either
table (the source assigns only to its local result dict and to
`self.validation_results`). -/
def validateAccountingEquationRun (s : ValidatorState) : EqResult × ValidatorState :=
  (validateAccountingEquation s.balance, s)

/-- Sum of one monetary field over a list of child rows, as produced by the
child aggregation in `validate_hierarchy_correctness` (lines 280-285). -/
def childSum (f : BalanceRow → ℚ) (children : List BalanceRow) : ℚ :=
  (children.map f).sum

/-- The proper dot-prefix codes of a subject code that are present among the
codes of the slice (`_build_subject_tree` lines 371-378). -/
def properPrefixCandidates (codes : List String) (code : String) : List String :=
  let parts := pySplit code '.'
  ((List.range parts.length).filter (fun i => decide (0 < i))).filterMap (fun i =>
    let pc := pyJoin "." (parts.take i)
    if codes.contains pc then some pc else none)

/-- The immediate parent chosen by `_build_subject_tree`: the candidate of
maximal length, keeping the first one on ties as Python max does. -/
def directParent (codes : List String) (code : String) : Option String :=
  (properPrefixCandidates codes code).foldl
    (fun best c =>
      match best with
      | none => some c
      | some b => if b.length < c.length then some c else some b)
    none

/-- The children list `_build_subject_tree` accumulates for a parent code:
the rows of the slice whose direct parent is that code, in slice order. -/
def childrenOf (df : List BalanceRow) (parentCode : String) : List BalanceRow :=
  df.filter (fun r =>
    directParent (df.map (fun x => x.subjectCode)) r.subjectCode == some parentCode)

/-- The comparison list assembled for one parent by
`validate_hierarchy_correctness` (lines 276-334): for a debit-normal parent
(asset/expense) the three stage nets, parent net against the net of the
summed child debit and credit fields; symmetrically for a credit-normal
parent (liability/equity/income); for an unknown parent the strict
field-by-field comparison of all six raw columns. Each entry is
(field label, parent value, child sum). -/
def hierarchyChecks (parent : BalanceRow) (children : List BalanceRow) :
    List (String × ℚ × ℚ) :=
  let cdo := childSum (fun r => r.openDebit) children
  let cco := childSum (fun r => r.openCredit) children
  let cdp := childSum (fun r => r.periodDebit) children
  let ccp := childSum (fun r => r.periodCredit) children
  let cdc := childSum (fun r => r.closeDebit) children
  let ccc := childSum (fun r => r.closeCredit) children
  match getAccountTypeV parent.subjectCode with
  | .asset | .expense =>
    [("期初净额", parent.openDebit - parent.openCredit, cdo - cco),
     ("本年累计净额", parent.periodDebit - parent.periodCredit, cdp - ccp),
     ("期末净额", parent.closeDebit - parent.closeCredit, cdc - ccc)]
  | .liability | .equity | .income =>
    [("期初净额", parent.openCredit - parent.openDebit, cco - cdo),
     ("本年累计净额", parent.periodCredit - parent.periodDebit, ccp - cdp),
     ("期末净额", parent.closeCredit - parent.closeDebit, ccc - cdc)]
  | .unknown =>
    [("期初借方", parent.openDebit, cdo),
     ("期初贷方", parent.openCredit, cco),
     ("本年累计借方", parent.periodDebit, cdp),
     ("本年累计贷方", parent.periodCredit, ccp),
     ("期末借方", parent.closeDebit, cdc),
     ("期末贷方", parent.closeCredit, ccc)]

/-- The failing comparisons for one parent: entries whose parent value and
child sum differ by more than the 0.01 tolerance (lines 336-358). -/
def hierarchyViolations (parent : BalanceRow) (children : List BalanceRow) :
    List (String × ℚ × ℚ) :=
  (hierarchyChecks parent children).filter (fun c => decide (0.01 < |c.2.1 - c.2.2|))

/-- Result accumulator of `validate_year_continuity`, with error records
carrying (previous year, current year, previous closing debit/credit,
current opening debit/credit). -/
structure ContResult where
  passed : Nat
  failed : Nat
  errors : List (Int × Int × ℚ × ℚ × ℚ × ℚ)
deriving DecidableEq, Repr

/-- Ordered insertion by year, modelling the sort of a group in
`validate_year_continuity`. -/
def insertByYear (r : BalanceRow) : List BalanceRow → List BalanceRow
  | [] => [r]
  | x :: xs => if r.year ≤ x.year then r :: x :: xs else x :: insertByYear r xs

/-- Sort a (company, subject code) group by year ascending
(`group.sort_values(年份)`). -/
def sortByYear : List BalanceRow → List BalanceRow
  | [] => []
  | x :: xs => insertByYear x (sortByYear xs)

/-- Adjacent pairs of a list, modelling the `for i in range(1, len(group))`
walk over consecutive entries of the sorted group. -/
def adjacentPairs : List BalanceRow → List (BalanceRow × BalanceRow)
  | a :: b :: rest => (a, b) :: adjacentPairs (b :: rest)
  | _ => []

/-- `validate_year_continuity` (lines 180-245) restricted to one
(company, subject code) group: sort by year; for each adjacent pair whose
years differ by exactly 1, pass when previous closing debit and credit each
match the current opening within 0.01, fail otherwise; pairs with a year gap
are skipped. -/
def validateYearContinuityGroup (group : List BalanceRow) : ContResult :=
  (adjacentPairs (sortByYear group)).foldl
    (fun acc pc =>
      let p := pc.1
      let c := pc.2
      if c.year = p.year + 1 then
        if |p.closeDebit - c.openDebit| ≤ 0.01 ∧ |p.closeCredit - c.openCredit| ≤ 0.01 then
          { acc with passed := acc.passed + 1 }
        else
          { acc with failed := acc.failed + 1,
                     errors := acc.errors ++
                       [(p.year, c.year, p.closeDebit, p.closeCredit,
                         c.openDebit, c.openCredit)] }
      else acc)
    ⟨0, 0, []⟩

/-- Grouping key of the voucher aggregation in
`validate_voucher_reconciliation` (lines 404-408). -/
structure VoucherKey where
  company : String
  fiscalYear : Int
  subjectCode : String
deriving DecidableEq, BEq, Repr

/-- The grouping key of a voucher row. -/
def voucherKey (v : VoucherRow) : VoucherKey :=
  ⟨v.company, v.fiscalYear, v.subjectCode⟩

/-- One row of the voucher summary: the key plus the summed debit and credit
amounts of the group. -/
structure SummaryRow where
  company : String
  fiscalYear : Int
  subjectCode : String
  debit : ℚ
  credit : ℚ
deriving DecidableEq, Repr

/-- The voucher aggregate `voucher_summary`: one row per distinct
(company, fiscal year, subject code) key with the group sums. -/
def voucherSummary (vs : List VoucherRow) : List SummaryRow :=
  ((vs.map voucherKey).dedup).map (fun k =>
    { company := k.company
      fiscalYear := k.fiscalYear
      subjectCode := k.subjectCode
      debit := ((vs.filter (fun v => voucherKey v == k)).map (fun v => v.debit)).sum
      credit := ((vs.filter (fun v => voucherKey v == k)).map (fun v => v.credit)).sum })

/-- The hardcoded year filter applied to the merged table (lines 430-434):
a merged row is kept only when voucher fiscal year and balance year are both
2024 or both 2025. -/
def voucherYearFilter (s : SummaryRow) (b : BalanceRow) : Bool :=
  (s.fiscalYear == 2024 && b.year == 2024) || (s.fiscalYear == 2025 && b.year == 2025)

/-- The (voucher summary, balance row) pairs `validate_voucher_reconciliation`
actually compares: restrict the balance table to subject codes present in the
voucher summary, inner-join on (company, subject code), then apply the
hardcoded 2024/2025 year filter. -/
def comparedPairs (vs : List VoucherRow) (bs : List BalanceRow) :
    List (SummaryRow × BalanceRow) :=
  let summary := voucherSummary vs
  let voucherSubjects := summary.map (fun s => s.subjectCode)
  let balanceFiltered := bs.filter (fun b => voucherSubjects.contains b.subjectCode)
  let merged := summary.flatMap (fun s =>
    (balanceFiltered.filter (fun b =>
        s.company == b.company && s.subjectCode == b.subjectCode)).map (fun b => (s, b)))
  merged.filter (fun p => voucherYearFilter p.1 p.2)

/-- The mismatching compared pairs (lines 438-470): summed voucher debit and
credit against the balance period-cumulative debit and credit, tolerance
0.01 on each side. -/
def voucherViolations (vs : List VoucherRow) (bs : List BalanceRow) :
    List (SummaryRow × BalanceRow) :=
  (comparedPairs vs bs).filter (fun p =>
    decide (0.01 < |p.1.debit - p.2.periodDebit|) ||
      decide (0.01 < |p.1.credit - p.2.periodCredit|))

/-- Classification as the amended claim words it: the code is primary when it
is non-blank and its main segment's first character matches 1-6; otherwise
the path's first non-empty segment is consulted (also when a non-blank code
matched nothing); unknown only when neither source yields a match. -/
def accountTypeAmendedSpec (code path : String) : AccountType :=
  if (code ≠ "nan" ∧ code ≠ "") ∧ (digitClass (mainCode code)).isSome then
    (digitClass (mainCode code)).getD .unknown
  else
    match (if path ≠ "nan" ∧ path ≠ "" then firstPathSegment path else none) with
    | some seg => (digitClass seg).getD .unknown
    | none => .unknown

/-- The violation condition of the accounting-equation check as the claim
words it: a known classification together with an identity miss beyond 0.01
on that classification's normal side. -/
def eqViolationSpec (r : BalanceRow) : Prop :=
  ((getAccountTypeV r.subjectCode = .asset ∨ getAccountTypeV r.subjectCode = .expense) ∧
    0.01 < |(r.closeDebit - r.closeCredit) -
      ((r.openDebit - r.openCredit) + (r.periodDebit - r.periodCredit))|) ∨
  ((getAccountTypeV r.subjectCode = .liability ∨ getAccountTypeV r.subjectCode = .equity ∨
      getAccountTypeV r.subjectCode = .income) ∧
    0.01 < |(r.closeCredit - r.closeDebit) -
      ((r.openCredit - r.openDebit) + (r.periodCredit - r.periodDebit))|)

instance (r : BalanceRow) : Decidable (eqViolationSpec r) := by
  unfold eqViolationSpec
  infer_instance

/-- A row the accounting-equation check counts as passing: known
classification and no violation. -/
def eqPassSpec (r : BalanceRow) : Prop :=
  getAccountTypeV r.subjectCode ≠ .unknown ∧ ¬ eqViolationSpec r

instance (r : BalanceRow) : Decidable (eqPassSpec r) := by
  unfold eqPassSpec
  infer_instance

/-- An asset row in the 2024 scope whose stored opening balance is off by 5,
so the solver adjusts it. -/
def rowA : BalanceRow :=
  { company := "A", period := "2024年12期", year := 2024, subjectCode := "1001",
    subjectName := "现金", codePath := "/1001/", isDimensionRow := false,
    dimensionName := "nan", openDebit := 5, openCredit := 0, periodDebit := 0,
    periodCredit := 0, closeDebit := 10, closeCredit := 0 }

/-- A 2024 row classified unknown (code 9999, no usable path) that violates
the accounting identity under both side conventions. -/
def rowB : BalanceRow :=
  { company := "A", period := "2024年12期", year := 2024, subjectCode := "9999",
    subjectName := "神秘科目", codePath := "nan", isDimensionRow := false,
    dimensionName := "nan", openDebit := 0, openCredit := 0, periodDebit := 0,
    periodCredit := 0, closeDebit := 100, closeCredit := 0 }

/-- rowA after the solver rewrites its opening pair. -/
def rowAAdj : BalanceRow :=
  { rowA with openDebit := 10, openCredit := 0 }

/-- A parent row (asset 1122) whose own six fields are all zero. -/
def hParent : BalanceRow :=
  { company := "A", period := "2024年12期", year := 2024, subjectCode := "1122",
    subjectName := "应收账款", codePath := "/1122/", isDimensionRow := false,
    dimensionName := "nan", openDebit := 0, openCredit := 0, periodDebit := 0,
    periodCredit := 0, closeDebit := 0, closeCredit := 0 }

/-- A child carrying 100 on the debit side at every stage. -/
def hChild1 : BalanceRow :=
  { company := "A", period := "2024年12期", year := 2024, subjectCode := "1122.01",
    subjectName := "应收账款一", codePath := "/1122/1122.01/", isDimensionRow := false,
    dimensionName := "nan", openDebit := 100, openCredit := 0, periodDebit := 100,
    periodCredit := 0, closeDebit := 100, closeCredit := 0 }

/-- A child carrying 100 on the credit side at every stage, cancelling
hChild1 in the net. -/
def hChild2 : BalanceRow :=
  { company := "A", period := "2024年12期", year := 2024, subjectCode := "1122.02",
    subjectName := "应收账款二", codePath := "/1122/1122.02/", isDimensionRow := false,
    dimensionName := "nan", openDebit := 0, openCredit := 100, periodDebit := 0,
    periodCredit := 100, closeDebit := 0, closeCredit := 100 }

/-- An in-scope dimension row with blank code and path (classified unknown). -/
def wRow : BalanceRow :=
  { company := "A", period := "2024年12期", year := 2024, subjectCode := "nan",
    subjectName := "维度行", codePath := "nan", isDimensionRow := true,
    dimensionName := "某公司", openDebit := 1, openCredit := 0, periodDebit := 0,
    periodCredit := 0, closeDebit := 5, closeCredit := 0 }

/-- Year-continuity fixtures: the 2023 closing row of the spec example. -/
def r23 : BalanceRow :=
  { company := "A", period := "2023年12期", year := 2023, subjectCode := "1002",
    subjectName := "银行存款", codePath := "/1002/", isDimensionRow := false,
    dimensionName := "nan", openDebit := 0, openCredit := 0, periodDebit := 0,
    periodCredit := 0, closeDebit := 500, closeCredit := 0 }

/-- 2024 row opening exactly (500, 0). -/
def r24exact : BalanceRow :=
  { r23 with period := "2024年12期", year := 2024, openDebit := 500 }

/-- 2024 row opening (499.98, 0). -/
def r24near : BalanceRow :=
  { r23 with period := "2024年12期", year := 2024, openDebit := 499.98 }

/-- 2024 row opening (480, 0). -/
def r24off : BalanceRow :=
  { r23 with period := "2024年12期", year := 2024, openDebit := 480 }

/-- 2025 row (a one-year gap after 2023). -/
def r25gap : BalanceRow :=
  { r23 with period := "2025年06期", year := 2025, openDebit := 500 }

/-- A voucher row of fiscal year 2023. -/
def v2023 : VoucherRow :=
  { company := "A", fiscalYear := 2023, subjectCode := "1001", debit := 10, credit := 0 }

/-- A balance row of derived year 2023 matching v2023 on company and code. -/
def b2023 : BalanceRow :=
  { company := "A", period := "2023年12期", year := 2023, subjectCode := "1001",
    subjectName := "现金", codePath := "/1001/", isDimensionRow := false,
    dimensionName := "nan", openDebit := 0, openCredit := 0, periodDebit := 10,
    periodCredit := 0, closeDebit := 10, closeCredit := 0 }

/-- C1: the all-or-nothing write-path claim fails on the code. On the table
[rowA, rowB] the solver adjusts rowA, the post-check passes every row (rowB,
classified unknown, is silently checked against rowA's leftover nets), the
adjusted table is persisted — yet the persisted in-scope row rowB violates
the identity by 100 under both side conventions. -/
theorem solver_allornothing_bug_run :
    (runAdjustment [rowA, rowB]).1 = true ∧
    (runAdjustment [rowA, rowB]).2 = [rowAAdj, rowB] ∧
    [rowAAdj, rowB] ≠ [rowA, rowB] ∧
    targetYears.contains rowB.year = true ∧
    getAccountTypeAdj rowB.subjectCode rowB.codePath = AccountType.unknown ∧
    0.01 < |(rowB.closeDebit - rowB.closeCredit) -
      ((rowB.openDebit - rowB.openCredit) + (rowB.periodDebit - rowB.periodCredit))| ∧
    0.01 < |(rowB.closeCredit - rowB.closeDebit) -
      ((rowB.openCredit - rowB.openDebit) + (rowB.periodCredit - rowB.periodDebit))| := by
  decide

/-- C10: the post-check does not always compute a row's nets from that row's
own fields. On a scope whose first row is classified unknown it aborts with
Python's UnboundLocalError; when the unknown row follows another row, its
check silently reuses the previous row's nets, so the violating rowB passes. -/
theorem verify_stale_nets_bug :
    getAccountTypeAdj rowB.subjectCode rowB.codePath = AccountType.unknown ∧
    verifyAdjustments [rowB] = Except.error "UnboundLocalError" ∧
    verifyAdjustments [rowAAdj, rowB] = Except.ok ⟨2, 0, []⟩ ∧
    0.01 < |(rowB.closeDebit - rowB.closeCredit) -
      ((rowB.openDebit - rowB.openCredit) + (rowB.periodDebit - rowB.periodCredit))| := by
  refine ⟨by decide, rfl, rfl, by decide⟩

/-- C9 counterexample: a row classified unknown that grossly violates the
debit-normal identity is not evaluated at all by
`validate_accounting_equation` — it is skipped, contributing to neither
counter and producing no error record. -/
theorem validator_skips_unknown_cex :
    getAccountTypeV rowB.subjectCode = AccountType.unknown ∧
    0.01 < |(rowB.closeDebit - rowB.closeCredit) -
      ((rowB.openDebit - rowB.openCredit) + (rowB.periodDebit - rowB.periodCredit))| ∧
    validateAccountingEquation [rowB] = ⟨0, 0, []⟩ := by
  decide

/-- C8 counterexample: with tolerance 0.01 per side, a 2024 opening debit of
499.98 against a 2023 closing debit of 500.00 differs by 0.02 and therefore
fails the continuity check, contrary to the claim that it passes. -/
theorem continuity_tolerance_cex :
    |r23.closeDebit - r24near.openDebit| = 0.02 ∧
    validateYearContinuityGroup [r23, r24near] =
      ⟨0, 1, [(2023, 2024, 500, 0, 499.98, 0)]⟩ := by
  decide

/-- C8 amended: opening (500, 0) passes; opening (499.98, 0) fails because
the per-side difference 0.02 exceeds the 0.01 tolerance; opening (480, 0)
fails with the closing-minus-opening difference equal to 20; a 2023/2025
year gap is skipped rather than flagged. -/
theorem continuity_examples_amended :
    validateYearContinuityGroup [r23, r24exact] = ⟨1, 0, []⟩ ∧
    validateYearContinuityGroup [r23, r24near] =
      ⟨0, 1, [(2023, 2024, 500, 0, 499.98, 0)]⟩ ∧
    validateYearContinuityGroup [r23, r24off] =
      ⟨0, 1, [(2023, 2024, 500, 0, 480, 0)]⟩ ∧
    r23.closeDebit - r24off.openDebit = 20 ∧
    validateYearContinuityGroup [r23, r25gap] = ⟨0, 0, []⟩ := by
  decide

/-- C7 counterexample: a voucher aggregate of fiscal year 2023 and a balance
row of derived year 2023 match on company, code and year, yet the
reconciliation compares nothing, because the year filter admits only
2024/2024 and 2025/2025 pairs. -/
theorem voucher_year_hardcode_cex :
    (voucherSummary [v2023]).length = 1 ∧
    (∀ s ∈ voucherSummary [v2023],
      s.company = b2023.company ∧ s.subjectCode = b2023.subjectCode ∧
        s.fiscalYear = b2023.year) ∧
    comparedPairs [v2023] [b2023] = [] := by
  decide

/-- C4 counterexample: the non-blank code 9001 matches none of the leading
digits 1-6, yet the classifier consults the path and returns asset instead of
unknown. -/
theorem classifier_fallback_cex :
    ("9001" : String) ≠ "nan" ∧ ("9001" : String) ≠ "" ∧
    digitClass (mainCode "9001") = none ∧
    getAccountTypeAdj "9001" "/1001/" = AccountType.asset := by
  decide

/-- C3: toPair splits a signed net exclusively — at most one nonzero
component, the net on the normal side when nonnegative and its negation on
the opposite side when negative — and reading the pair back on the same side
returns the net, for every real net and every normal side. -/
theorem toPair_roundtrip_exclusive (side : NormalSide) (n : ℚ) :
    netOfPair side (toPair side n) = n ∧
    ((toPair side n).1 = 0 ∨ (toPair side n).2 = 0) ∧
    (0 ≤ n → normalAmount side (toPair side n) = n ∧
      oppositeAmount side (toPair side n) = 0) ∧
    (n < 0 → oppositeAmount side (toPair side n) = -n ∧
      normalAmount side (toPair side n) = 0) := by
  cases side <;> rcases le_or_lt 0 n with h | h
  · simp [toPair, netOfPair, normalAmount, oppositeAmount, h, h.not_lt]
  · simp [toPair, netOfPair, normalAmount, oppositeAmount, h.not_le]
  · simp [toPair, netOfPair, normalAmount, oppositeAmount, h, h.not_lt]
  · simp [toPair, netOfPair, normalAmount, oppositeAmount, h.not_le]

/-- Witness for C3: the theorem applied at the debit side and net -3. -/
theorem toPair_roundtrip_exclusive_witness :
    netOfPair .debit (toPair .debit (-3)) = -3 ∧
    ((toPair .debit (-3)).1 = 0 ∨ (toPair .debit (-3)).2 = 0) ∧
    ((0 : ℚ) ≤ -3 → normalAmount .debit (toPair .debit (-3)) = -3 ∧
      oppositeAmount .debit (toPair .debit (-3)) = 0) ∧
    ((-3 : ℚ) < 0 → oppositeAmount .debit (toPair .debit (-3)) = -(-3) ∧
      normalAmount .debit (toPair .debit (-3)) = 0) :=
  toPair_roundtrip_exclusive .debit (-3)

/-- The shared else branch of the classifier and its amended description. -/
lemma pathFallback_eq (path : String) :
    (if path ≠ "nan" ∧ path ≠ "" then
        match firstPathSegment path with
        | some seg => digitClass seg
        | none => none
      else none).getD AccountType.unknown =
    (match (if path ≠ "nan" ∧ path ≠ "" then firstPathSegment path else none) with
      | some seg => (digitClass seg).getD AccountType.unknown
      | none => AccountType.unknown) := by
  by_cases hp : path ≠ "nan" ∧ path ≠ ""
  · rw [if_pos hp, if_pos hp]
    cases firstPathSegment path <;> rfl
  · rw [if_neg hp, if_neg hp]
    rfl

/-- C4 (amended): the classifier equals the amended description — the path
fallback is consulted when the code is blank/NaN or when a non-blank code
matches none of the digits 1-6, and unknown results only when neither source
matches; blank code with blank path yields unknown. Purity is immediate from
the classifier being a function of (code, path) alone. -/
theorem classifier_fallback_amended :
    (∀ code path, getAccountTypeAdj code path = accountTypeAmendedSpec code path) ∧
    getAccountTypeAdj "nan" "nan" = AccountType.unknown ∧
    getAccountTypeAdj "" "" = AccountType.unknown := by
  refine ⟨fun code path => ?_, by decide, by decide⟩
  unfold getAccountTypeAdj accountTypeAmendedSpec
  by_cases hc : code ≠ "nan" ∧ code ≠ ""
  · cases hd : digitClass (mainCode code) with
    | some t => simp [hc, hd]
    | none =>
      simp only [hc, hd, and_self, and_true, true_and, if_true, ite_true, ite_self,
        Option.isSome_none, Bool.false_eq_true, and_false, if_false, ite_false]
      exact pathFallback_eq path
  · simp only [hc, false_and, and_false, if_false, ite_false]
    exact pathFallback_eq path

/-- A row the adjuster classifies unknown keeps its stored opening pair. -/
lemma calcOpeningBalance_unknown (r : BalanceRow)
    (h : getAccountTypeAdj r.subjectCode r.codePath = .unknown) :
    calcOpeningBalance r = (r.openDebit, r.openCredit) := by
  simp only [calcOpeningBalance, h]

/-- adjustRow touches only the two opening fields. -/
lemma adjustRow_fields (r : BalanceRow) :
    (adjustRow r).company = r.company ∧ (adjustRow r).period = r.period ∧
    (adjustRow r).year = r.year ∧ (adjustRow r).subjectCode = r.subjectCode ∧
    (adjustRow r).subjectName = r.subjectName ∧ (adjustRow r).codePath = r.codePath ∧
    (adjustRow r).isDimensionRow = r.isDimensionRow ∧
    (adjustRow r).dimensionName = r.dimensionName ∧
    (adjustRow r).periodDebit = r.periodDebit ∧
    (adjustRow r).periodCredit = r.periodCredit ∧
    (adjustRow r).closeDebit = r.closeDebit ∧
    (adjustRow r).closeCredit = r.closeCredit := by
  simp only [adjustRow]
  repeat' split
  all_goals exact ⟨rfl, rfl, rfl, rfl, rfl, rfl, rfl, rfl, rfl, rfl, rfl, rfl⟩

/-- C6: frame property of the solver pass. The output table is the per-row
image of adjustRow; adjustRow preserves every field other than the opening
pair; a row outside the target years, the grand-total row, or a row
classified unknown is returned exactly as stored; and an in-scope non-total
unknown row is reported in the warning list. -/
theorem solver_frame (df : List BalanceRow) (i : Nat) (r : BalanceRow)
    (h : df[i]? = some r) :
    (adjustOpeningBalances df).1[i]? = some (adjustRow r) ∧
    ((adjustRow r).company = r.company ∧ (adjustRow r).period = r.period ∧
      (adjustRow r).year = r.year ∧ (adjustRow r).subjectCode = r.subjectCode ∧
      (adjustRow r).subjectName = r.subjectName ∧ (adjustRow r).codePath = r.codePath ∧
      (adjustRow r).isDimensionRow = r.isDimensionRow ∧
      (adjustRow r).dimensionName = r.dimensionName ∧
      (adjustRow r).periodDebit = r.periodDebit ∧
      (adjustRow r).periodCredit = r.periodCredit ∧
      (adjustRow r).closeDebit = r.closeDebit ∧
      (adjustRow r).closeCredit = r.closeCredit) ∧
    ((¬ targetYears.contains r.year = true ∨ r.subjectName = "合计" ∨
        getAccountTypeAdj r.subjectCode r.codePath = .unknown) → adjustRow r = r) ∧
    ((targetYears.contains r.year = true ∧ r.subjectName ≠ "合计" ∧
        getAccountTypeAdj r.subjectCode r.codePath = .unknown) → r ∈ adjustWarnings df) := by
  refine ⟨?_, adjustRow_fields r, ?_, ?_⟩
  · show (df.map adjustRow)[i]? = some (adjustRow r)
    rw [List.getElem?_map, h]
    rfl
  · intro hcase
    rcases hcase with hy | hn | hu
    · unfold adjustRow
      rw [if_neg hy]
    · simp [adjustRow, hn]
    · have hc := calcOpeningBalance_unknown r hu
      have h01 : ¬((0.01 : ℚ) < 0) := by norm_num
      simp [adjustRow, hc, h01]
  · intro hcase
    have hmem : r ∈ df := by
      have hlt := List.getElem?_eq_some.mp h
      rcases hlt with ⟨hi, heq⟩
      exact heq ▸ List.getElem_mem hi
    unfold adjustWarnings
    rw [List.mem_filter]
    refine ⟨hmem, ?_⟩
    simp [hcase.2.1, hcase.2.2]
    exact ⟨by simpa using hcase.1, rfl⟩

/-- Witness for C6: the theorem applied to the one-row table [wRow], whose
row is in scope, not the grand-total row, and classified unknown. -/
theorem solver_frame_witness :
    (adjustOpeningBalances [wRow]).1[0]? = some (adjustRow wRow) ∧
    adjustRow wRow = wRow ∧
    wRow ∈ adjustWarnings [wRow] := by
  have h := solver_frame [wRow] 0 wRow rfl
  exact ⟨h.1, h.2.2.1 (Or.inr (Or.inr (by decide))),
    h.2.2.2 ⟨by decide, by decide, by decide⟩⟩

/-- Boolean form of the violation test of `validate_accounting_equation`. -/
def eqViolB (r : BalanceRow) : Bool :=
  match getAccountTypeV r.subjectCode with
  | .unknown => false
  | t =>
    let v := rowNets (normalSide t) r
    decide (0.01 < |v.2.2 - (v.1 + v.2.1)|)

/-- Boolean form of: the row has a known classification. -/
def eqKnownB (r : BalanceRow) : Bool :=
  decide (getAccountTypeV r.subjectCode ≠ AccountType.unknown)

/-- Boolean form of: the row is counted as passing. -/
def eqPassB (r : BalanceRow) : Bool :=
  eqKnownB r && !(eqViolB r)

/-- One step of the accounting-equation fold, phrased through the Boolean
row predicates. -/
lemma eqStep_eq (acc : EqResult) (r : BalanceRow) :
    eqStep acc r =
      { passed := acc.passed + (if eqPassB r then 1 else 0),
        failed := acc.failed + (if eqViolB r then 1 else 0),
        errors := acc.errors ++ (if eqViolB r then [mkEqErrorOf r] else []) } := by
  cases ht : getAccountTypeV r.subjectCode <;>
    cases hv : eqViolB r <;>
      simp_all [eqStep, eqViolB, eqPassB, eqKnownB]

/-- The accounting-equation fold from any accumulator, characterized by
filters over the row predicates. -/
lemma validateAccountingEquation_foldl (df : List BalanceRow) (acc : EqResult) :
    df.foldl eqStep acc =
      { passed := acc.passed + (df.filter eqPassB).length,
        failed := acc.failed + (df.filter eqViolB).length,
        errors := acc.errors ++ (df.filter eqViolB).map mkEqErrorOf } := by
  induction df generalizing acc with
  | nil => simp
  | cons r rest ih =>
    rw [List.foldl_cons, eqStep_eq, ih]
    by_cases hv : eqViolB r = true
    · have hp : eqPassB r = false := by simp [eqPassB, hv]
      simp [List.filter_cons, hv, hp, EqResult.mk.injEq, List.append_assoc]
      omega
    · have hv2 : eqViolB r = false := by simpa using hv
      by_cases hp : eqPassB r = true
      · simp [List.filter_cons, hv2, hp, EqResult.mk.injEq]
        omega
      · have hp2 : eqPassB r = false := by simpa using hp
        simp [List.filter_cons, hv2, hp2]

/-- The Boolean violation test agrees with the claim-level predicate. -/
lemma eqViolB_iff (r : BalanceRow) : eqViolB r = true ↔ eqViolationSpec r := by
  unfold eqViolB eqViolationSpec
  cases ht : getAccountTypeV r.subjectCode <;>
    simp [ht, rowNets, normalSide]

/-- The Boolean pass test agrees with the claim-level predicate. -/
lemma eqPassB_iff (r : BalanceRow) : eqPassB r = true ↔ eqPassSpec r := by
  unfold eqPassB eqPassSpec eqKnownB
  rw [Bool.and_eq_true, decide_eq_true_eq, Bool.not_eq_true', Bool.eq_false_iff]
  exact and_congr_right fun _ => not_congr (eqViolB_iff r)

/-- Filtering by the Boolean violation test is filtering by the claim
predicate. -/
lemma filter_eqViolB_eq (df : List BalanceRow) :
    df.filter eqViolB = df.filter (fun r => decide (eqViolationSpec r)) := by
  apply List.filter_congr
  intro r _
  cases h : eqViolB r
  · have hs : ¬ eqViolationSpec r := fun hs => by
      rw [(eqViolB_iff r).mpr hs] at h
      exact Bool.noConfusion h
    simp [hs]
  · have hs : eqViolationSpec r := (eqViolB_iff r).mp h
    simp [hs]

/-- Filtering by the Boolean pass test is filtering by the claim predicate. -/
lemma filter_eqPassB_eq (df : List BalanceRow) :
    df.filter eqPassB = df.filter (fun r => decide (eqPassSpec r)) := by
  apply List.filter_congr
  intro r _
  cases h : eqPassB r
  · have hs : ¬ eqPassSpec r := fun hs => by
      rw [(eqPassB_iff r).mpr hs] at h
      exact Bool.noConfusion h
    simp [hs]
  · have hs : eqPassSpec r := (eqPassB_iff r).mp h
    simp [hs]

/-- C2: the accounting-equation check leaves both tables unchanged, and its
error list, failure count and pass count are exactly the rows of known
classification whose identity misses (respectively holds within) the 0.01
tolerance on the classification's normal side — debit minus credit for
asset/expense, credit minus debit for liability/equity/income. -/
theorem accounting_equation_characterization (s : ValidatorState) :
    (validateAccountingEquationRun s).2 = s ∧
    (validateAccountingEquationRun s).1.errors =
      (s.balance.filter (fun r => decide (eqViolationSpec r))).map mkEqErrorOf ∧
    (validateAccountingEquationRun s).1.failed =
      (s.balance.filter (fun r => decide (eqViolationSpec r))).length ∧
    (validateAccountingEquationRun s).1.passed =
      (s.balance.filter (fun r => decide (eqPassSpec r))).length := by
  refine ⟨rfl, ?_, ?_, ?_⟩ <;>
    simp [validateAccountingEquationRun, validateAccountingEquation,
      validateAccountingEquation_foldl, filter_eqViolB_eq, filter_eqPassB_eq]

/-- Filtering twice, the outer predicate implying the inner one, equals
filtering once. -/
lemma filter_filter_of_imp {p q : BalanceRow → Bool}
    (h : ∀ a, p a = true → q a = true) (l : List BalanceRow) :
    (l.filter q).filter p = l.filter p := by
  induction l with
  | nil => rfl
  | cons a t ih =>
    cases hq : q a
    · have hpa : p a = false := by
        cases hpc : p a
        · rfl
        · exact absurd ((h a hpc).symm.trans hq) (by simp)
      simp [List.filter_cons, hq, hpa, ih]
    · cases hpa : p a <;> simp [List.filter_cons, hq, hpa, ih]

/-- A passing row has a known classification. -/
lemma eqPassB_known (r : BalanceRow) (h : eqPassB r = true) : eqKnownB r = true := by
  unfold eqPassB at h
  rw [Bool.and_eq_true] at h
  exact h.1

/-- A violating row has a known classification. -/
lemma eqViolB_known (r : BalanceRow) (h : eqViolB r = true) : eqKnownB r = true := by
  unfold eqViolB at h
  unfold eqKnownB
  cases ht : getAccountTypeV r.subjectCode
  all_goals rw [ht] at h
  all_goals simp [ht]
  all_goals exact Bool.noConfusion h

/-- C9 (amended): rows classified unknown are skipped outright by the
accounting-equation check — validating any table gives the same counters and
error list as validating the table with the unknown rows removed. -/
theorem accounting_equation_skips_unknown (df : List BalanceRow) :
    validateAccountingEquation df =
      validateAccountingEquation (df.filter eqKnownB) := by
  rw [validateAccountingEquation, validateAccountingEquation,
    validateAccountingEquation_foldl, validateAccountingEquation_foldl,
    filter_filter_of_imp eqPassB_known, filter_filter_of_imp eqViolB_known]

/-- C5: a parent of known classification is reconciled against its children
by the three stage nets of the summed child debit and credit fields — on the
debit side for asset/expense, on the credit side for liability/equity/income
— recording no violation exactly when all three net differences stay within
0.01, while an unknown parent is reconciled by strict comparison of all six
raw columns against the child sums. -/
theorem hierarchy_compares_nets (parent : BalanceRow) (children : List BalanceRow) :
    (getAccountTypeV parent.subjectCode = .asset ∨
        getAccountTypeV parent.subjectCode = .expense →
      (hierarchyViolations parent children = [] ↔
        |(parent.openDebit - parent.openCredit) -
            (childSum (fun r => r.openDebit) children -
              childSum (fun r => r.openCredit) children)| ≤ 0.01 ∧
        |(parent.periodDebit - parent.periodCredit) -
            (childSum (fun r => r.periodDebit) children -
              childSum (fun r => r.periodCredit) children)| ≤ 0.01 ∧
        |(parent.closeDebit - parent.closeCredit) -
            (childSum (fun r => r.closeDebit) children -
              childSum (fun r => r.closeCredit) children)| ≤ 0.01)) ∧
    (getAccountTypeV parent.subjectCode = .liability ∨
        getAccountTypeV parent.subjectCode = .equity ∨
        getAccountTypeV parent.subjectCode = .income →
      (hierarchyViolations parent children = [] ↔
        |(parent.openCredit - parent.openDebit) -
            (childSum (fun r => r.openCredit) children -
              childSum (fun r => r.openDebit) children)| ≤ 0.01 ∧
        |(parent.periodCredit - parent.periodDebit) -
            (childSum (fun r => r.periodCredit) children -
              childSum (fun r => r.periodDebit) children)| ≤ 0.01 ∧
        |(parent.closeCredit - parent.closeDebit) -
            (childSum (fun r => r.closeCredit) children -
              childSum (fun r => r.closeDebit) children)| ≤ 0.01)) ∧
    (getAccountTypeV parent.subjectCode = .unknown →
      (hierarchyViolations parent children = [] ↔
        |parent.openDebit - childSum (fun r => r.openDebit) children| ≤ 0.01 ∧
        |parent.openCredit - childSum (fun r => r.openCredit) children| ≤ 0.01 ∧
        |parent.periodDebit - childSum (fun r => r.periodDebit) children| ≤ 0.01 ∧
        |parent.periodCredit - childSum (fun r => r.periodCredit) children| ≤ 0.01 ∧
        |parent.closeDebit - childSum (fun r => r.closeDebit) children| ≤ 0.01 ∧
        |parent.closeCredit - childSum (fun r => r.closeCredit) children| ≤ 0.01)) := by
  refine ⟨?_, ?_, ?_⟩
  · rintro (ht | ht) <;>
      simp [hierarchyViolations, hierarchyChecks, ht, List.filter_eq_nil_iff, not_lt]
  · rintro (ht | ht | ht) <;>
      simp [hierarchyViolations, hierarchyChecks, ht, List.filter_eq_nil_iff, not_lt]
  · intro ht
    simp [hierarchyViolations, hierarchyChecks, ht, List.filter_eq_nil_iff, not_lt]

/-- Witness for C5: a parent whose two children cancel 100 debit against 100
credit at every stage — the net comparison records no violation although the
raw debit sums differ from the parent's raw fields. -/
theorem hierarchy_compares_nets_witness :
    hierarchyViolations hParent [hChild1, hChild2] = [] ∧
    hParent.openDebit ≠ childSum (fun r => r.openDebit) [hChild1, hChild2] ∧
    2 ≤ ([hChild1, hChild2] : List BalanceRow).length := by
  refine ⟨?_, by decide, by decide⟩
  exact ((hierarchy_compares_nets hParent [hChild1, hChild2]).1
    (Or.inl (by decide))).mpr (by decide)

/-- C7 (amended): the reconciliation compares exactly the inner-join pairs —
voucher aggregate and balance row agreeing on company and subject code —
whose voucher fiscal year equals the balance row's derived year AND whose
common year is 2024 or 2025; pairs with differing years, and pairs whose
matching year is any other year, are not compared. A compared pair is a
violation exactly when a summed side differs from the period-cumulative side
by more than 0.01. -/
theorem voucher_compared_pairs_amended :
    (∀ (vs : List VoucherRow) (bs : List BalanceRow) (s : SummaryRow) (b : BalanceRow),
      (s, b) ∈ comparedPairs vs bs ↔
        s ∈ voucherSummary vs ∧ b ∈ bs ∧ s.company = b.company ∧
          s.subjectCode = b.subjectCode ∧ s.fiscalYear = b.year ∧
          (s.fiscalYear = 2024 ∨ s.fiscalYear = 2025)) ∧
    (∀ (vs : List VoucherRow) (bs : List BalanceRow) (p : SummaryRow × BalanceRow),
      p ∈ voucherViolations vs bs ↔
        p ∈ comparedPairs vs bs ∧
          (0.01 < |p.1.debit - p.2.periodDebit| ∨
            0.01 < |p.1.credit - p.2.periodCredit|)) := by
  constructor
  · intro vs bs s b
    simp only [comparedPairs, List.mem_filter, List.mem_flatMap, List.mem_map,
      voucherYearFilter, Prod.mk.injEq, Bool.and_eq_true, Bool.or_eq_true, beq_iff_eq]
    constructor
    · rintro ⟨⟨s2, hs2, b2, hb2, hss, hbb⟩, hyear⟩
      subst hss
      subst hbb
      rcases hb2 with ⟨⟨hbs, hcontains⟩, hcomp, hcode⟩
      refine ⟨hs2, hbs, hcomp, hcode, ?_, ?_⟩
      · rcases hyear with ⟨h1, h2⟩ | ⟨h1, h2⟩ <;> rw [h1, h2]
      · rcases hyear with ⟨h1, _⟩ | ⟨h1, _⟩
        · exact Or.inl h1
        · exact Or.inr h1
    · rintro ⟨hs, hb, hcomp, hcode, hyeq, hyor⟩
      refine ⟨⟨s, hs, b, ⟨⟨hb, ?_⟩, hcomp, hcode⟩, rfl, rfl⟩, ?_⟩
      · simp only [List.contains_iff_exists_mem_beq]
        exact ⟨s.subjectCode, List.mem_map_of_mem (fun x => x.subjectCode) hs,
          by simp [hcode]⟩
      · rcases hyor with h1 | h1
        · exact Or.inl ⟨h1, by rw [← hyeq, h1]⟩
        · exact Or.inr ⟨h1, by rw [← hyeq, h1]⟩
  · intro vs bs p
    rw [voucherViolations, List.mem_filter]
    simp [decide_eq_true_eq]
